import Mathlib

/-!
Verification of the BankShotAI bank-shot physics engine.

The definitions below are a shallow embedding of the solver class
`BankShotCalculator` (bank-shot engine source) together with the table
constants it imports from `table-config.js`.  JavaScript floating-point
arithmetic is modelled by exact real arithmetic; JavaScript `null` returns
are modelled by `Option`; the thrown `TypeError` on an unknown pocket name
is modelled by `findAllShots` returning `none`.
-/

namespace BankShot

noncomputable section

/-! ## Table constants (from `table-config.js`) -/

/-- Table playing-surface width in millimeters (`TABLE_WIDTH`). -/
def TABLE_WIDTH : ℝ := 1118.0

/-- Table playing-surface length in millimeters (`TABLE_LENGTH`). -/
def TABLE_LENGTH : ℝ := 2235.0

/-- Ball diameter in millimeters (`BALL_DIAMETER`). -/
def BALL_DIAMETER : ℝ := 57.15

/-- Ball radius in millimeters (`BALL_RADIUS = BALL_DIAMETER / 2`). -/
def BALL_RADIUS : ℝ := BALL_DIAMETER / 2.0

/-- Inner edge of the left rail (`RAIL_LEFT`). -/
def RAIL_LEFT : ℝ := 0.0

/-- Inner edge of the right rail (`RAIL_RIGHT`). -/
def RAIL_RIGHT : ℝ := TABLE_WIDTH

/-- Inner edge of the bottom rail (`RAIL_BOTTOM`). -/
def RAIL_BOTTOM : ℝ := 0.0

/-- Inner edge of the top rail (`RAIL_TOP`). -/
def RAIL_TOP : ℝ := TABLE_LENGTH

/-- The four rail identifiers (the `RAIL` string enum in the source). -/
inductive Rail
  | left
  | right
  | bottom
  | top
deriving DecidableEq, Repr

/-- Iteration order `ALL_RAILS = [LEFT, RIGHT, BOTTOM, TOP]`. -/
def ALL_RAILS : List Rail := [Rail.left, Rail.right, Rail.bottom, Rail.top]

/-- The six pocket names, keys of the `POCKETS` object in `table-config.js`. -/
inductive PocketName
  | bottom_left
  | bottom_right
  | side_left
  | side_right
  | top_left
  | top_right
deriving DecidableEq, Repr

/-- Pocket positions from `table-config.js` (`POCKETS`). -/
def POCKETS : PocketName → ℝ × ℝ
  | .bottom_left => (0.0, 0.0)
  | .bottom_right => (TABLE_WIDTH, 0.0)
  | .side_left => (0.0, TABLE_LENGTH / 2.0)
  | .side_right => (TABLE_WIDTH, TABLE_LENGTH / 2.0)
  | .top_left => (0.0, TABLE_LENGTH)
  | .top_right => (TABLE_WIDTH, TABLE_LENGTH)

/-- Insertion order of the `POCKETS` object literal, which is the iteration
order of `Object.entries(this.pockets)` in `findAllShots`. -/
def POCKET_LIST : List PocketName :=
  [.bottom_left, .bottom_right, .side_left, .side_right, .top_left, .top_right]

/-- The `DIFFICULTY` string enum of the engine. -/
inductive Difficulty
  | easy
  | medium
  | hard
  | very_hard
deriving DecidableEq, Repr

/-- Euclidean norm helper, `hypot(dx, dy) = Math.sqrt(dx*dx + dy*dy)`. -/
noncomputable def hypot (dx dy : ℝ) : ℝ := Real.sqrt (dx * dx + dy * dy)

/-- Euclidean distance between two points, `hypot(b - a)`. -/
noncomputable def dist (a b : ℝ × ℝ) : ℝ := hypot (b.1 - a.1) (b.2 - a.2)

/-- The `ShotPath` record produced by the engine (see the `@typedef` in the
source).  `difficulty` is the category and `difficultyScore` the numeric
score. -/
structure ShotPath where
  cuePos : ℝ × ℝ
  objectPos : ℝ × ℝ
  targetPocket : ℝ × ℝ
  aimPoint : ℝ × ℝ
  bankPoints : List (ℝ × ℝ)
  railsUsed : List Rail
  totalDistance : ℝ
  difficulty : Difficulty
  difficultyScore : ℝ
  pathSegments : List ((ℝ × ℝ) × (ℝ × ℝ))

/-- The solver's per-instance fields set in the constructor:
`this.width` and `this.length` (the pocket table `this.pockets` is always the
global `POCKETS` constant, and `this.diag` is derived below). -/
structure Calc where
  width : ℝ
  length : ℝ

/-- The default-constructed calculator, `new BankShotCalculator()`. -/
def calcDefault : Calc := { width := TABLE_WIDTH, length := TABLE_LENGTH }

/-- Derived field `this.diag = hypot(this.width, this.length)`. -/
noncomputable def Calc.diag (c : Calc) : ℝ := hypot c.width c.length

/-! ## Solver methods (from the `BankShotCalculator` class) -/

/-- Method `_rateDifficulty(cueDist, obDist, numBanks)`. -/
noncomputable def rateDifficulty (c : Calc) (cueDist obDist : ℝ) (numBanks : ℕ) : ℝ :=
  min 1.0 ((cueDist + obDist) / (2 * c.diag) * 0.5 + (numBanks : ℝ) * 0.25)

/-- Method `_scoreToDifficulty(score)`. -/
noncomputable def scoreToDifficulty (score : ℝ) : Difficulty :=
  if score < 0.25 then .easy
  else if score < 0.5 then .medium
  else if score < 0.75 then .hard
  else .very_hard

/-- Method `_ghostBallPoint(objectPos, direction)`. -/
noncomputable def ghostBallPoint (objectPos direction : ℝ × ℝ) : ℝ × ℝ :=
  let norm := hypot direction.1 direction.2
  if norm < 1e-9 then objectPos
  else (objectPos.1 - direction.1 / norm * BALL_RADIUS * 2,
        objectPos.2 - direction.2 / norm * BALL_RADIUS * 2)

/-- Method `_onTable(point)`: the point may lie up to one ball radius beyond
each rail line (uses the global rail constants). -/
def onTable (p : ℝ × ℝ) : Prop :=
  RAIL_LEFT - BALL_RADIUS ≤ p.1 ∧ p.1 ≤ RAIL_RIGHT + BALL_RADIUS ∧
  RAIL_BOTTOM - BALL_RADIUS ≤ p.2 ∧ p.2 ≤ RAIL_TOP + BALL_RADIUS

instance (p : ℝ × ℝ) : Decidable (onTable p) := by
  unfold onTable; infer_instance

/-- Method `_onRail(point, rail)` with its default `margin = 50.0`: the
rail-span check with 50 mm of tolerance past each end (uses the instance
fields `this.length` / `this.width`). -/
def onRail (c : Calc) (p : ℝ × ℝ) : Rail → Prop
  | .left | .right => -50.0 ≤ p.2 ∧ p.2 ≤ c.length + 50.0
  | .bottom | .top => -50.0 ≤ p.1 ∧ p.1 ≤ c.width + 50.0

instance (c : Calc) (p : ℝ × ℝ) (r : Rail) : Decidable (onRail c p r) := by
  cases r <;> (unfold onRail; infer_instance)

/-- Method `_reflectPoint(point, rail)`: mirror a point across a rail line.
The source's `switch` covers all four rails (its trailing `return null` is
unreachable for `Rail` values). -/
def reflectPoint (c : Calc) (p : ℝ × ℝ) : Rail → ℝ × ℝ
  | .left => (-p.1, p.2)
  | .right => (2 * c.width - p.1, p.2)
  | .bottom => (p.1, -p.2)
  | .top => (p.1, 2 * c.length - p.2)

/-- Method `_lineRailIntersection(p1, p2, rail)`: parametric intersection of
the line `p1 + t (p2 - p1)` with a rail line (global rail constants),
rejecting near-parallel lines and intersections behind `p1`. -/
noncomputable def lineRailIntersection (p1 p2 : ℝ × ℝ) (rail : Rail) : Option (ℝ × ℝ) :=
  let dx := p2.1 - p1.1
  let dy := p2.2 - p1.2
  let tOpt : Option ℝ :=
    match rail with
    | .left => if |dx| < 1e-9 then none else some ((RAIL_LEFT - p1.1) / dx)
    | .right => if |dx| < 1e-9 then none else some ((RAIL_RIGHT - p1.1) / dx)
    | .bottom => if |dy| < 1e-9 then none else some ((RAIL_BOTTOM - p1.2) / dy)
    | .top => if |dy| < 1e-9 then none else some ((RAIL_TOP - p1.2) / dy)
  match tOpt with
  | none => none
  | some t => if t < 0 then none else some (p1.1 + t * dx, p1.2 + t * dy)

/-- Method `_calcDirect(cuePos, objectPos, pocketPos)`. -/
noncomputable def calcDirect (c : Calc) (cuePos objectPos pocketPos : ℝ × ℝ) :
    Option ShotPath :=
  let dx := pocketPos.1 - objectPos.1
  let dy := pocketPos.2 - objectPos.2
  let d := hypot dx dy
  if d < 1e-6 then none
  else
    let direction : ℝ × ℝ := (dx / d, dy / d)
    let aim := ghostBallPoint objectPos direction
    if ¬ onTable aim then none
    else
      let cueDist := hypot (aim.1 - cuePos.1) (aim.2 - cuePos.2)
      let totalDist := cueDist + d
      let score := rateDifficulty c cueDist d 0
      some { cuePos := cuePos, objectPos := objectPos, targetPocket := pocketPos,
             aimPoint := aim, bankPoints := [], railsUsed := [],
             totalDistance := totalDist,
             difficulty := scoreToDifficulty score,
             difficultyScore := score,
             pathSegments := [(cuePos, aim), (objectPos, pocketPos)] }

/-- Method `_calcSingleBank(cuePos, objectPos, pocketPos, rail)`. -/
noncomputable def calcSingleBank (c : Calc) (cuePos objectPos pocketPos : ℝ × ℝ)
    (rail : Rail) : Option ShotPath :=
  let mirror := reflectPoint c pocketPos rail
  match lineRailIntersection objectPos mirror rail with
  | none => none
  | some bankPoint =>
    if ¬ onRail c bankPoint rail then none
    else
      let dx := bankPoint.1 - objectPos.1
      let dy := bankPoint.2 - objectPos.2
      let dist1 := hypot dx dy
      if dist1 < 1e-6 then none
      else
        let direction : ℝ × ℝ := (dx / dist1, dy / dist1)
        let aim := ghostBallPoint objectPos direction
        if ¬ onTable aim then none
        else
          let dist2 := hypot (pocketPos.1 - bankPoint.1) (pocketPos.2 - bankPoint.2)
          let cueDist := hypot (aim.1 - cuePos.1) (aim.2 - cuePos.2)
          let totalDist := cueDist + dist1 + dist2
          let score := rateDifficulty c cueDist (dist1 + dist2) 1
          some { cuePos := cuePos, objectPos := objectPos, targetPocket := pocketPos,
                 aimPoint := aim, bankPoints := [bankPoint], railsUsed := [rail],
                 totalDistance := totalDist,
                 difficulty := scoreToDifficulty score,
                 difficultyScore := score,
                 pathSegments := [(cuePos, aim), (objectPos, bankPoint),
                                  (bankPoint, pocketPos)] }

/-- Method `_calcDoubleBank(cuePos, objectPos, pocketPos, rail1, rail2)`. -/
noncomputable def calcDoubleBank (c : Calc) (cuePos objectPos pocketPos : ℝ × ℝ)
    (rail1 rail2 : Rail) : Option ShotPath :=
  let mirror1 := reflectPoint c pocketPos rail2
  let mirror2 := reflectPoint c mirror1 rail1
  match lineRailIntersection objectPos mirror2 rail1 with
  | none => none
  | some bank1 =>
    if ¬ onRail c bank1 rail1 then none
    else
      match lineRailIntersection bank1 mirror1 rail2 with
      | none => none
      | some bank2 =>
        if ¬ onRail c bank2 rail2 then none
        else
          let dx := bank1.1 - objectPos.1
          let dy := bank1.2 - objectPos.2
          let distOb := hypot dx dy
          if distOb < 1e-6 then none
          else
            let direction : ℝ × ℝ := (dx / distOb, dy / distOb)
            let aim := ghostBallPoint objectPos direction
            if ¬ onTable aim then none
            else
              let distB1B2 := hypot (bank2.1 - bank1.1) (bank2.2 - bank1.2)
              let distB2P := hypot (pocketPos.1 - bank2.1) (pocketPos.2 - bank2.2)
              let cueDist := hypot (aim.1 - cuePos.1) (aim.2 - cuePos.2)
              let totalDist := cueDist + distOb + distB1B2 + distB2P
              let score := rateDifficulty c cueDist (distOb + distB1B2 + distB2P) 2
              some { cuePos := cuePos, objectPos := objectPos, targetPocket := pocketPos,
                     aimPoint := aim, bankPoints := [bank1, bank2],
                     railsUsed := [rail1, rail2],
                     totalDistance := totalDist,
                     difficulty := scoreToDifficulty score,
                     difficultyScore := score,
                     pathSegments := [(cuePos, aim), (objectPos, bank1),
                                      (bank1, bank2), (bank2, pocketPos)] }

/-- Direct-shot candidates contributed by one pocket in `findAllShots`. -/
noncomputable def directShotsFor (c : Calc) (cuePos objectPos : ℝ × ℝ)
    (p : PocketName) : List ShotPath :=
  (calcDirect c cuePos objectPos (POCKETS p)).toList

/-- Single-bank candidates contributed by one pocket in `findAllShots`
(the `maxBanks >= 1` loop over `ALL_RAILS`). -/
noncomputable def singleBankShotsFor (c : Calc) (cuePos objectPos : ℝ × ℝ)
    (p : PocketName) (maxBanks : ℤ) : List ShotPath :=
  if 1 ≤ maxBanks then
    ALL_RAILS.filterMap (fun rail => calcSingleBank c cuePos objectPos (POCKETS p) rail)
  else []

/-- Double-bank candidates contributed by one pocket in `findAllShots`
(the `maxBanks >= 2` nested loops over ordered pairs of distinct rails). -/
noncomputable def doubleBankShotsFor (c : Calc) (cuePos objectPos : ℝ × ℝ)
    (p : PocketName) (maxBanks : ℤ) : List ShotPath :=
  if 2 ≤ maxBanks then
    ALL_RAILS.flatMap (fun rail1 =>
      ALL_RAILS.filterMap (fun rail2 =>
        if rail1 = rail2 then none
        else calcDoubleBank c cuePos objectPos (POCKETS p) rail1 rail2))
  else []

/-- All candidates pushed onto `shots` for one pocket, in push order:
direct, then single banks, then double banks. -/
noncomputable def pocketShots (c : Calc) (cuePos objectPos : ℝ × ℝ)
    (p : PocketName) (maxBanks : ℤ) : List ShotPath :=
  directShotsFor c cuePos objectPos p
    ++ singleBankShotsFor c cuePos objectPos p maxBanks
    ++ doubleBankShotsFor c cuePos objectPos p maxBanks

/-- Comparison relation of the final sort: non-decreasing difficulty score. -/
def scoreLE (a b : ShotPath) : Prop := a.difficultyScore ≤ b.difficultyScore

instance : DecidableRel scoreLE := fun a b => by unfold scoreLE; infer_instance

instance : IsTotal ShotPath scoreLE :=
  ⟨fun a b => le_total a.difficultyScore b.difficultyScore⟩

instance : IsTrans ShotPath scoreLE :=
  ⟨fun _ _ _ hab hbc => le_trans hab hbc⟩

/-- The final `shots.sort((a, b) => a.difficultyScore - b.difficultyScore)`:
a stable sort into non-decreasing `difficultyScore` order. -/
noncomputable def sortScore (l : List ShotPath) : List ShotPath :=
  l.insertionSort scoreLE

/-- The solver's core enumeration for a validated pocket selector
(`some p` for one pocket, `none` for all six), merging every pocket's
candidates and sorting by ascending difficulty score. -/
noncomputable def solve (c : Calc) (cuePos objectPos : ℝ × ℝ)
    (targetPocket : Option PocketName) (maxBanks : ℤ) : List ShotPath :=
  sortScore (match targetPocket with
    | some p => pocketShots c cuePos objectPos p maxBanks
    | none => POCKET_LIST.flatMap (fun p => pocketShots c cuePos objectPos p maxBanks))

/-- Lookup of a pocket-name string among the own keys of the `POCKETS`
object literal. -/
def parsePocket (s : String) : Option PocketName :=
  if s = "bottom_left" then some .bottom_left
  else if s = "bottom_right" then some .bottom_right
  else if s = "side_left" then some .side_left
  else if s = "side_right" then some .side_right
  else if s = "top_left" then some .top_left
  else if s = "top_right" then some .top_right
  else none

/-- String-keyed properties that every plain object literal (such as
`POCKETS`) inherits from `Object.prototype`, so that
`this.pockets[name]` yields a non-undefined value — a function, or the
prototype object for `__proto__` — that is not a coordinate pair. -/
def OBJECT_PROTOTYPE_KEYS : List String :=
  ["constructor", "hasOwnProperty", "isPrototypeOf", "propertyIsEnumerable",
   "toLocaleString", "toString", "valueOf", "__proto__",
   "__defineGetter__", "__defineSetter__", "__lookupGetter__", "__lookupSetter__"]

/-- Outcome of the JavaScript property read `this.pockets[name]`:
an own key yields that pocket's coordinate pair; a key inherited from
`Object.prototype` yields a non-undefined value that is not a pair;
every other key yields `undefined`. -/
inductive PocketLookup
  | coords (p : PocketName)
  | protoValue
  | absent
deriving DecidableEq, Repr

/-- The property read `this.pockets[name]`, prototype chain included. -/
def pocketLookup (s : String) : PocketLookup :=
  match parsePocket s with
  | some p => .coords p
  | none => if s ∈ OBJECT_PROTOTYPE_KEYS then .protoValue else .absent

/-- Method `findAllShots(cuePos, objectPos, targetPocket, maxBanks)` with the
string/null pocket selector.  A falsy selector (JavaScript `null` or the
empty string) selects all six pockets.  For a truthy name the loop runs once
on `this.pockets[targetPocket]`:
with an own key this is the pocket's coordinates; with a key that resolves
only through the prototype chain, `pocketPos[0]` is `undefined`, so
`_calcDirect` fails silently through `NaN` comparisons, and if any bank is
enumerated (`maxBanks >= 1`), `_reflectPoint`'s `const [x, y] = point`
destructures a non-iterable value and throws a `TypeError` (modelled as
`none`), while with `maxBanks < 1` the call returns the empty list; with any
other key `pocketPos` is `undefined` and `_calcDirect`'s `pocketPos[0]`
throws a `TypeError` at once (modelled as `none`). -/
noncomputable def findAllShots (c : Calc) (cuePos objectPos : ℝ × ℝ)
    (targetPocket : Option String) (maxBanks : ℤ) : Option (List ShotPath) :=
  match targetPocket with
  | none => some (solve c cuePos objectPos none maxBanks)
  | some s =>
    if s = "" then some (solve c cuePos objectPos none maxBanks)
    else
      match pocketLookup s with
      | .coords p => some (solve c cuePos objectPos (some p) maxBanks)
      | .protoValue => if 1 ≤ maxBanks then none else some []
      | .absent => none

/-- Model of one `findAllShots` method call on a calculator object: the
method body assigns no instance field, so the post-call object state is the
unchanged receiver, returned here alongside the result list. -/
noncomputable def solveRun (c : Calc) (cuePos objectPos : ℝ × ℝ)
    (targetPocket : Option PocketName) (maxBanks : ℤ) : List ShotPath × Calc :=
  (solve c cuePos objectPos targetPocket maxBanks, c)

/-! ## Spec-side derived quantities -/

/-- Length of one path segment. -/
noncomputable def segLength (seg : (ℝ × ℝ) × (ℝ × ℝ)) : ℝ := dist seg.1 seg.2

/-- Sum of the object-ball-side segment lengths of a candidate: every path
segment except the leading cue→aim segment. -/
noncomputable def objectTravel (s : ShotPath) : ℝ :=
  ((s.pathSegments.drop 1).map segLength).sum

/-- Constant coordinate of a rail's line (the global rail constants used by
`_lineRailIntersection`). -/
def railConst : Rail → ℝ
  | .left => RAIL_LEFT
  | .right => RAIL_RIGHT
  | .bottom => RAIL_BOTTOM
  | .top => RAIL_TOP

/-- Coordinate of a point along a rail's normal axis: `x` for the vertical
rails, `y` for the horizontal rails. -/
def railAxisCoord (p : ℝ × ℝ) : Rail → ℝ
  | .left | .right => p.1
  | .bottom | .top => p.2

/-- Axis component of the direction `p2 - p1` used by
`_lineRailIntersection`'s parallel test. -/
def railAxisDelta (p1 p2 : ℝ × ℝ) (r : Rail) : ℝ :=
  railAxisCoord p2 r - railAxisCoord p1 r

/-- Parameter `t` of the single-bank mirror construction: the line
`object + t (mirror - object)` meets the rail's constant coordinate at
`t = (railConst - objectAxisCoord) / axisDelta`. -/
noncomputable def bankT (c : Calc) (obj pk : ℝ × ℝ) (r : Rail) : ℝ :=
  (railConst r - railAxisCoord obj r) / railAxisDelta obj (reflectPoint c pk r) r

/-- The cushion point of the single-bank mirror construction, the point of
the line `object + t (mirror - object)` at `t = bankT`. -/
noncomputable def bankPt (c : Calc) (obj pk : ℝ × ℝ) (r : Rail) : ℝ × ℝ :=
  (obj.1 + bankT c obj pk r * ((reflectPoint c pk r).1 - obj.1),
   obj.2 + bankT c obj pk r * ((reflectPoint c pk r).2 - obj.2))

/-! ## Concrete scenario values -/

/-- Difficulty score of the concrete single-bank scenario below:
cue→aim 500 mm, object-side travel 1897.5 mm, one cushion. -/
noncomputable def scoreW : ℝ := rateDifficulty calcDefault 500 1897.5 1

/-- The single-bank candidate produced for cue (145.72, 772.79),
object (400, 1138.5), pocket (1118, 0), left rail, on the default table:
cushion point (0, 838.5), aim point (445.72, 1172.79), all segment lengths
rational (3-4-5 triangles). -/
noncomputable def sW : ShotPath :=
  { cuePos := (145.72, 772.79), objectPos := (400, 1138.5), targetPocket := (1118, 0),
    aimPoint := (445.72, 1172.79), bankPoints := [(0, 838.5)], railsUsed := [Rail.left],
    totalDistance := 2397.5, difficulty := Difficulty.medium, difficultyScore := scoreW,
    pathSegments := [((145.72, 772.79), (445.72, 1172.79)),
                     ((400, 1138.5), (0, 838.5)), ((0, 838.5), (1118, 0))] }

/-- Object-to-pocket distance of spec Scenario A:
`hypot(1118 - 500, 0 - 500) = sqrt 631924 ≈ 794.94`. -/
noncomputable def d7 : ℝ := Real.sqrt 631924

/-- Aim point of spec Scenario A (ghost-ball offset from (500, 500) along
the unit direction toward the bottom-right pocket). -/
noncomputable def aim7 : ℝ × ℝ :=
  (500 - 618 / d7 * BALL_RADIUS * 2, 500 - -500 / d7 * BALL_RADIUS * 2)

/-- Cue-to-aim distance of spec Scenario A. -/
noncomputable def cueDist7 : ℝ := hypot (aim7.1 - 300) (aim7.2 - 1000)

/-- Difficulty score of spec Scenario A. -/
noncomputable def score7 : ℝ := rateDifficulty calcDefault cueDist7 d7 0

/-- The direct candidate of spec Scenario A: table 1118×2235, object
(500, 500), pocket bottom-right (1118, 0), cue (300, 1000). -/
noncomputable def s7 : ShotPath :=
  { cuePos := (300, 1000), objectPos := (500, 500), targetPocket := (1118, 0),
    aimPoint := aim7, bankPoints := [], railsUsed := [],
    totalDistance := cueDist7 + d7,
    difficulty := Difficulty.easy, difficultyScore := score7,
    pathSegments := [((300, 1000), aim7), ((500, 500), (1118, 0))] }

/-! ## Basic geometry lemmas -/

lemma hypot_nonneg (dx dy : ℝ) : 0 ≤ hypot dx dy := Real.sqrt_nonneg _

lemma hypot_mul_self (dx dy : ℝ) : hypot dx dy * hypot dx dy = dx * dx + dy * dy :=
  Real.mul_self_sqrt (by nlinarith [mul_self_nonneg dx, mul_self_nonneg dy])

lemma hypot_unit {dx dy d : ℝ} (hd : hypot dx dy = d) (h0 : d ≠ 0) :
    hypot (dx / d) (dy / d) = 1 := by
  have hm := hypot_mul_self dx dy
  rw [hd] at hm
  have hs : dx / d * (dx / d) + dy / d * (dy / d) = 1 := by
    field_simp
    linarith [hm]
  unfold hypot
  rw [hs, Real.sqrt_one]

lemma hypot_scale (a b k : ℝ) : hypot (a * k) (b * k) = |k| * hypot a b := by
  unfold hypot
  rw [show a * k * (a * k) + b * k * (b * k) = k * k * (a * a + b * b) by ring,
    Real.sqrt_mul (mul_self_nonneg k), Real.sqrt_mul_self_eq_abs]

lemma ball_radius_pos : (0 : ℝ) < BALL_RADIUS * 2 := by
  norm_num [BALL_RADIUS, BALL_DIAMETER]

lemma ghost_unit {obj dir : ℝ × ℝ} (h : hypot dir.1 dir.2 = 1) :
    ghostBallPoint obj dir =
      (obj.1 - dir.1 * BALL_RADIUS * 2, obj.2 - dir.2 * BALL_RADIUS * 2) := by
  simp only [ghostBallPoint, h]
  rw [if_neg (by norm_num)]
  simp

lemma ghost_dist {obj dir : ℝ × ℝ} (h : hypot dir.1 dir.2 = 1) :
    dist (ghostBallPoint obj dir) obj = BALL_RADIUS * 2 := by
  rw [ghost_unit h]
  unfold dist
  simp only
  rw [show obj.1 - (obj.1 - dir.1 * BALL_RADIUS * 2) = dir.1 * (BALL_RADIUS * 2) by ring,
    show obj.2 - (obj.2 - dir.2 * BALL_RADIUS * 2) = dir.2 * (BALL_RADIUS * 2) by ring,
    hypot_scale, h, mul_one, abs_of_nonneg (le_of_lt ball_radius_pos)]

/-! ## Characterization of the three candidate constructors -/

lemma calcDirect_props {c : Calc} {cue obj pk : ℝ × ℝ} {s : ShotPath}
    (h : calcDirect c cue obj pk = some s) :
    s.cuePos = cue ∧ s.objectPos = obj ∧ s.targetPocket = pk ∧
    s.bankPoints = [] ∧ s.railsUsed = [] ∧
    s.pathSegments = [(cue, s.aimPoint), (obj, pk)] ∧
    dist s.aimPoint obj = BALL_RADIUS * 2 ∧
    onTable s.aimPoint ∧
    s.totalDistance = dist cue s.aimPoint + dist obj pk ∧
    s.difficultyScore = rateDifficulty c (dist cue s.aimPoint) (dist obj pk) 0 ∧
    s.difficulty = scoreToDifficulty s.difficultyScore := by
  simp only [calcDirect] at h
  split_ifs at h with h1 h2
  have hd : hypot (pk.1 - obj.1) (pk.2 - obj.2) ≠ 0 := by
    have := not_lt.mp h1
    intro h0
    rw [h0] at this
    norm_num at this
  have hu : hypot ((pk.1 - obj.1) / hypot (pk.1 - obj.1) (pk.2 - obj.2))
      ((pk.2 - obj.2) / hypot (pk.1 - obj.1) (pk.2 - obj.2)) = 1 :=
    hypot_unit rfl hd
  obtain rfl := Option.some_inj.mp h
  refine ⟨rfl, rfl, rfl, rfl, rfl, rfl, ?_, h2, rfl, rfl, rfl⟩
  exact ghost_dist hu

lemma calcSingleBank_props {c : Calc} {cue obj pk : ℝ × ℝ} {r : Rail} {s : ShotPath}
    (h : calcSingleBank c cue obj pk r = some s) :
    ∃ bp, lineRailIntersection obj (reflectPoint c pk r) r = some bp ∧
      onRail c bp r ∧
      s.cuePos = cue ∧ s.objectPos = obj ∧ s.targetPocket = pk ∧
      s.bankPoints = [bp] ∧ s.railsUsed = [r] ∧
      s.pathSegments = [(cue, s.aimPoint), (obj, bp), (bp, pk)] ∧
      dist s.aimPoint obj = BALL_RADIUS * 2 ∧
      onTable s.aimPoint ∧
      s.totalDistance = dist cue s.aimPoint + dist obj bp + dist bp pk ∧
      s.difficultyScore = rateDifficulty c (dist cue s.aimPoint) (dist obj bp + dist bp pk) 1 ∧
      s.difficulty = scoreToDifficulty s.difficultyScore := by
  rcases hbp : lineRailIntersection obj (reflectPoint c pk r) r with _ | bp
  · simp only [calcSingleBank, hbp] at h
    exact Option.noConfusion h
  · simp only [calcSingleBank, hbp] at h
    split_ifs at h with h1 h2 h3
    have hd : hypot (bp.1 - obj.1) (bp.2 - obj.2) ≠ 0 := by
      have := not_lt.mp h2
      intro h0
      rw [h0] at this
      norm_num at this
    have hu : hypot ((bp.1 - obj.1) / hypot (bp.1 - obj.1) (bp.2 - obj.2))
        ((bp.2 - obj.2) / hypot (bp.1 - obj.1) (bp.2 - obj.2)) = 1 :=
      hypot_unit rfl hd
    obtain rfl := Option.some_inj.mp h
    refine ⟨bp, rfl, h1, rfl, rfl, rfl, rfl, rfl, rfl, ?_, h3, rfl, rfl, rfl⟩
    exact ghost_dist hu

lemma calcDoubleBank_props {c : Calc} {cue obj pk : ℝ × ℝ} {r1 r2 : Rail} {s : ShotPath}
    (h : calcDoubleBank c cue obj pk r1 r2 = some s) :
    ∃ b1 b2,
      onRail c b1 r1 ∧ onRail c b2 r2 ∧
      s.cuePos = cue ∧ s.objectPos = obj ∧ s.targetPocket = pk ∧
      s.bankPoints = [b1, b2] ∧ s.railsUsed = [r1, r2] ∧
      s.pathSegments = [(cue, s.aimPoint), (obj, b1), (b1, b2), (b2, pk)] ∧
      dist s.aimPoint obj = BALL_RADIUS * 2 ∧
      onTable s.aimPoint ∧
      s.totalDistance = dist cue s.aimPoint + dist obj b1 + dist b1 b2 + dist b2 pk ∧
      s.difficultyScore =
        rateDifficulty c (dist cue s.aimPoint) (dist obj b1 + dist b1 b2 + dist b2 pk) 2 ∧
      s.difficulty = scoreToDifficulty s.difficultyScore := by
  rcases hb1 : lineRailIntersection obj (reflectPoint c (reflectPoint c pk r2) r1) r1
    with _ | b1
  · simp only [calcDoubleBank, hb1] at h
    exact Option.noConfusion h
  · rcases hb2 : lineRailIntersection b1 (reflectPoint c pk r2) r2 with _ | b2
    · simp only [calcDoubleBank, hb1, hb2] at h
      split_ifs at h
    · simp only [calcDoubleBank, hb1, hb2] at h
      split_ifs at h with h1 h2 h3 h4
      have hd : hypot (b1.1 - obj.1) (b1.2 - obj.2) ≠ 0 := by
        have := not_lt.mp h3
        intro h0
        rw [h0] at this
        norm_num at this
      have hu : hypot ((b1.1 - obj.1) / hypot (b1.1 - obj.1) (b1.2 - obj.2))
          ((b1.2 - obj.2) / hypot (b1.1 - obj.1) (b1.2 - obj.2)) = 1 :=
        hypot_unit rfl hd
      obtain rfl := Option.some_inj.mp h
      refine ⟨b1, b2, h1, h2, rfl, rfl, rfl, rfl, rfl, rfl, ?_, h4, rfl, rfl, rfl⟩
      exact ghost_dist hu

/-! ## Membership in the solver output -/

lemma mem_solve {c : Calc} {cue obj : ℝ × ℝ} {tp : Option PocketName} {mb : ℤ}
    {s : ShotPath} (h : s ∈ solve c cue obj tp mb) :
    ∃ p, s ∈ pocketShots c cue obj p mb := by
  unfold solve sortScore at h
  rw [List.mem_insertionSort] at h
  cases tp with
  | some p => exact ⟨p, h⟩
  | none =>
    obtain ⟨p, _, hp⟩ := List.mem_flatMap.mp h
    exact ⟨p, hp⟩

lemma mem_pocketShots {c : Calc} {cue obj : ℝ × ℝ} {p : PocketName} {mb : ℤ}
    {s : ShotPath} (h : s ∈ pocketShots c cue obj p mb) :
    calcDirect c cue obj (POCKETS p) = some s
    ∨ (1 ≤ mb ∧ ∃ r, calcSingleBank c cue obj (POCKETS p) r = some s)
    ∨ (2 ≤ mb ∧ ∃ r1 r2, r1 ≠ r2 ∧ calcDoubleBank c cue obj (POCKETS p) r1 r2 = some s) := by
  unfold pocketShots directShotsFor singleBankShotsFor doubleBankShotsFor at h
  rcases List.mem_append.mp h with h12 | h
  rcases List.mem_append.mp h12 with h | h
  · left
    simpa using h
  · right; left
    split_ifs at h with h1
    · obtain ⟨r, _, hr⟩ := List.mem_filterMap.mp h
      exact ⟨h1, r, hr⟩
    · simp at h
  · right; right
    split_ifs at h with h2
    · obtain ⟨r1, _, hr1⟩ := List.mem_flatMap.mp h
      obtain ⟨r2, _, hr2⟩ := List.mem_filterMap.mp hr1
      refine ⟨h2, r1, r2, ?_, ?_⟩
      · intro hne
        rw [if_pos hne] at hr2
        exact absurd hr2 (by simp)
      · by_cases hne : r1 = r2
        · rw [if_pos hne] at hr2
          exact absurd hr2 (by simp)
        · rwa [if_neg hne] at hr2
    · simp at h

/-- C1 helper: the score/category bundle for a single candidate. -/
lemma candidate_score_spec {c : Calc} {cue obj : ℝ × ℝ} {tp : Option PocketName}
    {mb : ℤ} {s : ShotPath} (hs : s ∈ solve c cue obj tp mb) :
    s.difficultyScore =
      min 1.0 (0.5 * ((dist s.cuePos s.aimPoint + objectTravel s) / (2 * c.diag))
        + 0.25 * (s.bankPoints.length : ℝ)) ∧
    s.difficulty = scoreToDifficulty s.difficultyScore := by
  obtain ⟨p, hp⟩ := mem_solve hs
  rcases mem_pocketShots hp with hD | ⟨_, r, hS⟩ | ⟨_, r1, r2, _, hDD⟩
  · obtain ⟨hc, ho, _, hb, _, hseg, _, _, _, hscore, hdiff⟩ := calcDirect_props hD
    refine ⟨?_, hdiff⟩
    rw [hscore, hc]
    unfold rateDifficulty objectTravel
    rw [hseg, hb]
    simp only [List.drop_succ_cons, List.drop_zero, List.map_cons, List.map_nil,
      List.sum_cons, List.sum_nil, List.length_nil, segLength]
    congr 1
    push_cast
    ring
  · obtain ⟨bp, _, _, hc, ho, _, hb, _, hseg, _, _, _, hscore, hdiff⟩ :=
      calcSingleBank_props hS
    refine ⟨?_, hdiff⟩
    rw [hscore, hc]
    unfold rateDifficulty objectTravel
    rw [hseg, hb]
    simp only [List.drop_succ_cons, List.drop_zero, List.map_cons, List.map_nil,
      List.sum_cons, List.sum_nil, List.length_cons, List.length_nil, segLength]
    congr 1
    push_cast
    ring
  · obtain ⟨b1, b2, _, _, hc, ho, _, hb, _, hseg, _, _, _, hscore, hdiff⟩ :=
      calcDoubleBank_props hDD
    refine ⟨?_, hdiff⟩
    rw [hscore, hc]
    unfold rateDifficulty objectTravel
    rw [hseg, hb]
    simp only [List.drop_succ_cons, List.drop_zero, List.map_cons, List.map_nil,
      List.sum_cons, List.sum_nil, List.length_cons, List.length_nil, segLength]
    congr 1
    push_cast
    ring

/-- Closed form of `_lineRailIntersection` in terms of the rail-axis
parameterization. -/
lemma lineRailIntersection_char (p1 p2 : ℝ × ℝ) (r : Rail) :
    lineRailIntersection p1 p2 r =
      (if |railAxisDelta p1 p2 r| < 1e-9 then none
       else if (railConst r - railAxisCoord p1 r) / railAxisDelta p1 p2 r < 0 then none
       else some
         (p1.1 + (railConst r - railAxisCoord p1 r) / railAxisDelta p1 p2 r * (p2.1 - p1.1),
          p1.2 + (railConst r - railAxisCoord p1 r) / railAxisDelta p1 p2 r * (p2.2 - p1.2))) := by
  cases r
  all_goals
    simp only [lineRailIntersection, railAxisDelta, railAxisCoord, railConst]
    split_ifs with h1 h2
    · rfl
    · dsimp only
      rw [if_pos h2]
    · dsimp only
      rw [if_neg h2]

/-- A successful single-bank candidate records exactly one cushion point and
one rail. -/
lemma singleBank_railsUsed {c : Calc} {cue obj pk : ℝ × ℝ} {r : Rail} {s : ShotPath}
    (h : calcSingleBank c cue obj pk r = some s) : s.railsUsed = [r] := by
  obtain ⟨bp, _, _, _, _, _, _, hr, _⟩ := calcSingleBank_props h
  exact hr

/-- A successful double-bank candidate records exactly two rails. -/
lemma doubleBank_railsUsed {c : Calc} {cue obj pk : ℝ × ℝ} {r1 r2 : Rail} {s : ShotPath}
    (h : calcDoubleBank c cue obj pk r1 r2 = some s) : s.railsUsed = [r1, r2] := by
  obtain ⟨b1, b2, _, _, _, _, _, _, hr, _⟩ := calcDoubleBank_props h
  exact hr

/-! ## Numeric evaluation lemmas -/

lemma lt_sqrt_of_sq {a b : ℝ} (ha : 0 ≤ a) (h : a * a < b) : a < Real.sqrt b := by
  have h1 : Real.sqrt (a * a) < Real.sqrt b := Real.sqrt_lt_sqrt (mul_self_nonneg a) h
  rwa [Real.sqrt_mul_self ha] at h1

lemma sqrt_lt_of_sq {a b : ℝ} (ha : 0 ≤ a) (hb : 0 ≤ b) (h : a < b * b) :
    Real.sqrt a < b := by
  have h1 : Real.sqrt a < Real.sqrt (b * b) := Real.sqrt_lt_sqrt ha h
  rwa [Real.sqrt_mul_self hb] at h1

lemma sqrt_250000 : Real.sqrt 250000 = 500 := by
  rw [show (250000 : ℝ) = 500 * 500 by norm_num, Real.sqrt_mul_self (by norm_num)]

lemma sqrt_1953006_25 : Real.sqrt 1953006.25 = 1397.5 := by
  rw [show (1953006.25 : ℝ) = 1397.5 * 1397.5 by norm_num,
    Real.sqrt_mul_self (by norm_num)]

lemma diag_default_eq : calcDefault.diag = Real.sqrt 6245149 := by
  simp only [Calc.diag, calcDefault, hypot, TABLE_WIDTH, TABLE_LENGTH]
  norm_num

lemma diag_default_gt : (2499 : ℝ) < calcDefault.diag := by
  rw [diag_default_eq]
  exact lt_sqrt_of_sq (by norm_num) (by norm_num)

lemma diag_default_lt : calcDefault.diag < 2500 := by
  rw [diag_default_eq]
  exact sqrt_lt_of_sq (by norm_num) (by norm_num) (by norm_num)

lemma scoreW_bounds : 0.25 ≤ rateDifficulty calcDefault 500 1897.5 1 ∧
    rateDifficulty calcDefault 500 1897.5 1 < 0.5 := by
  have h1 := diag_default_gt
  have hpos : (0 : ℝ) < calcDefault.diag := by linarith
  unfold rateDifficulty
  push_cast
  constructor
  · have hq : 0 ≤ (500 + 1897.5) / (2 * calcDefault.diag) * 0.5 := by positivity
    rw [le_min_iff]
    exact ⟨by norm_num, by linarith⟩
  · have hq : ((500 : ℝ) + 1897.5) / (2 * calcDefault.diag) < 0.5 := by
      rw [div_lt_iff (by positivity)]
      nlinarith
    calc min 1.0 ((500 + 1897.5) / (2 * calcDefault.diag) * 0.5 + 1 * 0.25)
        ≤ (500 + 1897.5) / (2 * calcDefault.diag) * 0.5 + 1 * 0.25 := min_le_right _ _
      _ < 0.5 := by linarith

lemma scoreToDifficulty_W :
    scoreToDifficulty (rateDifficulty calcDefault 500 1897.5 1) = Difficulty.medium := by
  obtain ⟨hge, hlt⟩ := scoreW_bounds
  unfold scoreToDifficulty
  rw [if_neg (not_lt.mpr hge), if_pos hlt]

set_option maxHeartbeats 1000000 in
/-- Full evaluation of `_calcSingleBank` on the concrete 3-4-5 scenario. -/
lemma sW_eq :
    calcSingleBank calcDefault (145.72, 772.79) (400, 1138.5) (1118, 0) Rail.left
      = some sW := by
  have hL : lineRailIntersection (400, 1138.5)
      (reflectPoint calcDefault (1118, 0) Rail.left) Rail.left = some (0, 838.5) := by
    simp only [reflectPoint, lineRailIntersection, RAIL_LEFT]
    rw [if_neg (by norm_num [abs_lt] : ¬ |(-1118 : ℝ) - 400| < 1e-9)]
    dsimp only
    rw [if_neg (by norm_num : ¬ ((0.0 : ℝ) - 400) / (-1118 - 400) < 0)]
    norm_num [Prod.ext_iff]
  have honr : onRail calcDefault (0, 838.5) Rail.left := by
    norm_num [onRail, calcDefault, TABLE_LENGTH]
  have h1 : hypot ((0 : ℝ) - 400) ((838.5 : ℝ) - 1138.5) = 500 := by
    unfold hypot
    norm_num [sqrt_250000]
  have hu : hypot (((0 : ℝ) - 400) / 500) (((838.5 : ℝ) - 1138.5) / 500) = 1 := by
    unfold hypot
    norm_num
  have haim : ghostBallPoint (400, 1138.5)
      (((0 : ℝ) - 400) / 500, ((838.5 : ℝ) - 1138.5) / 500) = (445.72, 1172.79) := by
    simp only [ghostBallPoint, hu]
    rw [if_neg (by norm_num : ¬ (1 : ℝ) < 1e-9)]
    norm_num [Prod.ext_iff, BALL_RADIUS, BALL_DIAMETER]
  have hcue : hypot ((445.72 : ℝ) - 145.72) ((1172.79 : ℝ) - 772.79) = 500 := by
    unfold hypot
    norm_num [sqrt_250000]
  have hd2 : hypot ((1118 : ℝ) - 0) ((0 : ℝ) - 838.5) = 1397.5 := by
    unfold hypot
    rw [show ((1118 : ℝ) - 0) * ((1118 : ℝ) - 0) + ((0 : ℝ) - 838.5) * ((0 : ℝ) - 838.5)
        = 1397.5 * 1397.5 by norm_num, Real.sqrt_mul_self (by norm_num)]
  simp only [calcSingleBank, hL]
  rw [if_neg (not_not_intro honr)]
  rw [h1]
  rw [if_neg (by norm_num : ¬ (500 : ℝ) < 1e-6)]
  rw [haim]
  rw [hcue, hd2]
  rw [show (500 : ℝ) + 1397.5 = 1897.5 by norm_num]
  rw [scoreToDifficulty_W]
  rw [show (500 : ℝ) + 500 + 1397.5 = 2397.5 by norm_num]
  simp only [sW, scoreW]
  rw [if_neg (not_not_intro (by
    norm_num [onTable, RAIL_LEFT, RAIL_RIGHT, RAIL_BOTTOM, RAIL_TOP, TABLE_WIDTH,
      TABLE_LENGTH, BALL_RADIUS, BALL_DIAMETER] : onTable (445.72, 1172.79)))]

/-! ## Numeric facts for spec Scenario A -/

lemma hpk_br : POCKETS PocketName.bottom_right = ((1118 : ℝ), (0 : ℝ)) := by
  norm_num [POCKETS, TABLE_WIDTH, Prod.ext_iff]

lemma d7_eq : hypot ((1118 : ℝ) - 500) ((0 : ℝ) - 500) = d7 := by
  unfold hypot d7
  norm_num

lemma d7_lo : (794.936 : ℝ) < d7 := by
  unfold d7
  exact lt_sqrt_of_sq (by norm_num) (by norm_num)

lemma d7_hi : d7 < 794.937 := by
  unfold d7
  exact sqrt_lt_of_sq (by norm_num) (by norm_num) (by norm_num)

lemma d7_pos : (0 : ℝ) < d7 := by linarith [d7_lo]

lemma q618_lo : (0.77741 : ℝ) < 618 / d7 := by
  rw [lt_div_iff d7_pos]
  nlinarith [d7_hi]

lemma q618_hi : 618 / d7 < 0.77743 := by
  rw [div_lt_iff d7_pos]
  nlinarith [d7_lo]

lemma q500_lo : (0.62897 : ℝ) < 500 / d7 := by
  rw [lt_div_iff d7_pos]
  nlinarith [d7_hi]

lemma q500_hi : 500 / d7 < 0.62899 := by
  rw [div_lt_iff d7_pos]
  nlinarith [d7_lo]

lemma ball_radius_val : BALL_RADIUS = 28.575 := by
  norm_num [BALL_RADIUS, BALL_DIAMETER]

lemma aim7_bounds : (455.569 : ℝ) < aim7.1 ∧ aim7.1 < 455.572 ∧
    (535.945 : ℝ) < aim7.2 ∧ aim7.2 < 535.947 := by
  have h1 := q618_lo
  have h2 := q618_hi
  have h3 := q500_lo
  have h4 := q500_hi
  have hneg : (-500 : ℝ) / d7 = -(500 / d7) := by ring
  unfold aim7
  dsimp only
  rw [ball_radius_val, hneg]
  refine ⟨by nlinarith, by nlinarith, by nlinarith, by nlinarith⟩

lemma cueDist7_bounds : (489.43 : ℝ) < cueDist7 ∧ cueDist7 < 489.44 := by
  obtain ⟨ha1, ha2, ha3, ha4⟩ := aim7_bounds
  unfold cueDist7 hypot
  constructor
  · apply lt_sqrt_of_sq (by norm_num)
    nlinarith [ha1, ha2, ha3, ha4]
  · apply sqrt_lt_of_sq (by nlinarith [ha1, ha2, ha3, ha4]) (by norm_num)
    nlinarith [ha1, ha2, ha3, ha4]

lemma score7_bounds : (0.1284 : ℝ) < score7 ∧ score7 < 0.1285 := by
  obtain ⟨hc1, hc2⟩ := cueDist7_bounds
  have hd1 := d7_lo
  have hd2 := d7_hi
  have hdg := diag_default_gt
  have hdl := diag_default_lt
  have hdpos : (0 : ℝ) < calcDefault.diag := by linarith
  unfold score7 rateDifficulty
  push_cast
  have hfrac_hi : (cueDist7 + d7) * 0.5 / (2 * calcDefault.diag) < 0.1285 := by
    rw [div_lt_iff (by linarith : (0 : ℝ) < 2 * calcDefault.diag)]
    nlinarith
  have hfrac_lo : (0.1284 : ℝ) < (cueDist7 + d7) * 0.5 / (2 * calcDefault.diag) := by
    rw [lt_div_iff (by linarith : (0 : ℝ) < 2 * calcDefault.diag)]
    nlinarith
  have heq : (cueDist7 + d7) / (2 * calcDefault.diag) * 0.5 + 0 * 0.25
      = (cueDist7 + d7) * 0.5 / (2 * calcDefault.diag) := by
    ring
  rw [heq, min_eq_right (by linarith)]
  exact ⟨hfrac_lo, hfrac_hi⟩

lemma score7_easy : scoreToDifficulty score7 = Difficulty.easy := by
  obtain ⟨h1, h2⟩ := score7_bounds
  unfold scoreToDifficulty
  rw [if_pos (by linarith)]

set_option maxHeartbeats 1000000 in
/-- Full evaluation of `_calcDirect` on spec Scenario A. -/
lemma s7_eq : calcDirect calcDefault (300, 1000) (500, 500)
    (POCKETS PocketName.bottom_right) = some s7 := by
  have hu7 : hypot (((1118 : ℝ) - 500) / d7) (((0 : ℝ) - 500) / d7) = 1 :=
    hypot_unit d7_eq (ne_of_gt d7_pos)
  have haim7 : ghostBallPoint (500, 500)
      (((1118 : ℝ) - 500) / d7, ((0 : ℝ) - 500) / d7) = aim7 := by
    simp only [ghostBallPoint, hu7]
    rw [if_neg (by norm_num : ¬ (1 : ℝ) < 1e-9)]
    unfold aim7
    norm_num [Prod.ext_iff]
  have honT : onTable aim7 := by
    obtain ⟨h1, h2, h3, h4⟩ := aim7_bounds
    unfold onTable
    norm_num [RAIL_LEFT, RAIL_RIGHT, RAIL_BOTTOM, RAIL_TOP, TABLE_WIDTH, TABLE_LENGTH,
      BALL_RADIUS, BALL_DIAMETER]
    refine ⟨by linarith, by linarith, by linarith, by linarith⟩
  rw [hpk_br]
  simp only [calcDirect]
  rw [d7_eq]
  rw [if_neg (by nlinarith [d7_lo] : ¬ d7 < 1e-6)]
  rw [haim7]
  rw [if_neg (not_not_intro honT)]
  rw [show hypot (aim7.1 - 300) (aim7.2 - 1000) = cueDist7 from rfl]
  rw [show scoreToDifficulty (rateDifficulty calcDefault cueDist7 d7 0)
      = Difficulty.easy from score7_easy]
  simp only [s7, score7]

/-! ## Claim theorems -/

/-- C1: every candidate returned by the solver has
`difficultyScore = min(1, 0.5 * (cueToAimDistance + objectTravelDistance) /
(2 * diagonal) + 0.25 * cushionCount)`, where `objectTravelDistance` is the
sum of the object-ball-side segment lengths and `cushionCount` the number of
cushion points; and `difficultyCategory` is EASY below 0.25, MEDIUM below
0.5, HARD below 0.75, and VERY_HARD otherwise. -/
theorem difficulty_score_and_category (c : Calc) (cue obj : ℝ × ℝ)
    (tp : Option PocketName) (mb : ℤ) :
    (solve c cue obj tp mb).Forall (fun s =>
      s.difficultyScore =
        min 1.0 (0.5 * ((dist s.cuePos s.aimPoint + objectTravel s) / (2 * c.diag))
          + 0.25 * (s.bankPoints.length : ℝ)) ∧
      s.difficulty = (if s.difficultyScore < 0.25 then Difficulty.easy
        else if s.difficultyScore < 0.5 then Difficulty.medium
        else if s.difficultyScore < 0.75 then Difficulty.hard
        else Difficulty.very_hard)) := by
  rw [List.forall_iff_forall_mem]
  intro s hs
  exact candidate_score_spec hs

/-- C2: for every request, the returned list is sorted non-decreasing in
`difficultyScore`. -/
theorem solve_sorted_by_score (c : Calc) (cue obj : ℝ × ℝ)
    (tp : Option PocketName) (mb : ℤ) :
    List.Sorted (fun a b => a.difficultyScore ≤ b.difficultyScore)
      (solve c cue obj tp mb) := by
  unfold solve sortScore
  exact List.sorted_insertionSort scoreLE _

/-- C3: every returned candidate's aim point lies at distance exactly
`2 * ballRadius` (57.15 mm) from the object position, hence within 1e-6 mm
of it. -/
theorem ghost_ball_distance_invariant (c : Calc) (cue obj : ℝ × ℝ)
    (tp : Option PocketName) (mb : ℤ) :
    (solve c cue obj tp mb).Forall (fun s =>
      |dist s.aimPoint s.objectPos - BALL_RADIUS * 2| ≤ 1e-6) := by
  rw [List.forall_iff_forall_mem]
  intro s hs
  obtain ⟨p, hp⟩ := mem_solve hs
  rcases mem_pocketShots hp with hD | ⟨_, r, hS⟩ | ⟨_, r1, r2, _, hDD⟩
  · obtain ⟨_, ho, _, _, _, _, hg, _⟩ := calcDirect_props hD
    rw [ho, hg]
    norm_num
  · obtain ⟨bp, _, _, _, ho, _, _, _, _, hg, _⟩ := calcSingleBank_props hS
    rw [ho, hg]
    norm_num
  · obtain ⟨b1, b2, _, _, _, ho, _, _, _, _, hg, _⟩ := calcDoubleBank_props hDD
    rw [ho, hg]
    norm_num

/-- C5: for every request with a meaningful `maxCushions` (0, 1 or 2 per
the data model, covered here by any non-negative bound), no returned
candidate has more cushion points than `maxCushions`. -/
theorem cushion_count_le_max (c : Calc) (cue obj : ℝ × ℝ) (tp : Option PocketName)
    (mb : ℤ) (hmb : 0 ≤ mb) :
    (solve c cue obj tp mb).Forall (fun s => (s.bankPoints.length : ℤ) ≤ mb) := by
  rw [List.forall_iff_forall_mem]
  intro s hs
  obtain ⟨p, hp⟩ := mem_solve hs
  rcases mem_pocketShots hp with hD | ⟨h1, r, hS⟩ | ⟨h2, r1, r2, _, hDD⟩
  · obtain ⟨_, _, _, hb, _⟩ := calcDirect_props hD
    rw [hb]
    simpa using hmb
  · obtain ⟨bp, _, _, _, _, _, hb, _⟩ := calcSingleBank_props hS
    rw [hb]
    simpa using h1
  · obtain ⟨b1, b2, _, _, _, _, _, hb, _⟩ := calcDoubleBank_props hDD
    rw [hb]
    simpa using h2

/-- Witness for C5: the bound instantiated at `maxCushions = 0`. -/
theorem cushion_count_le_max_witness :
    (0 : ℤ) ≤ 0 ∧ (solve calcDefault (0, 0) (0, 0) none 0).Forall
      (fun s => (s.bankPoints.length : ℤ) ≤ 0) :=
  ⟨le_refl 0, cushion_count_le_max calcDefault (0, 0) (0, 0) none 0 (le_refl 0)⟩

/-- C8: a `findAllShots` call mutates none of the solver's fields, and two
calls with identical inputs on the resulting state produce identical output
lists (two-run determinism). -/
theorem solver_stateless_deterministic (c : Calc) (cue obj : ℝ × ℝ)
    (tp : Option PocketName) (mb : ℤ) :
    (solveRun c cue obj tp mb).2 = c ∧
    (solveRun ((solveRun c cue obj tp mb).2) cue obj tp mb).1 =
      (solveRun c cue obj tp mb).1 :=
  ⟨rfl, rfl⟩

/-- C10: `findAllShots` performs no validation of `maxBanks`: any value at
least 2 behaves exactly like 2, and any value below 1 behaves exactly like 0
(direct shots only); the enumeration guards clamp silently. -/
theorem max_banks_not_validated (c : Calc) (cue obj : ℝ × ℝ) (tp : Option PocketName)
    (mb : ℤ) :
    (2 ≤ mb → solve c cue obj tp mb = solve c cue obj tp 2) ∧
    (mb < 1 → solve c cue obj tp mb = solve c cue obj tp 0) := by
  have key : ∀ k : ℤ, (1 ≤ mb ↔ 1 ≤ k) → (2 ≤ mb ↔ 2 ≤ k) →
      solve c cue obj tp mb = solve c cue obj tp k := by
    intro k hk1 hk2
    have hp : ∀ p, pocketShots c cue obj p mb = pocketShots c cue obj p k := by
      intro p
      unfold pocketShots singleBankShotsFor doubleBankShotsFor
      simp only [hk1, hk2]
    unfold solve
    simp only [hp]
  constructor
  · intro h
    exact key 2 (by omega) (by omega)
  · intro h
    exact key 0 (by omega) (by omega)

/-- C4: every single-cushion candidate for rail `r` has as its cushion point
the intersection of the object→mirrored-pocket line with the rail, taken at
parameter `t ≥ 0` of `p = object + t (mirror - object)`; and no candidate is
produced when the line is parallel to the rail (axis component below 1e-9),
when `t < 0`, or when the intersection lies outside the rail span extended
by 50 mm. -/
theorem single_bank_cushion_point_spec (c : Calc) (cue obj pk : ℝ × ℝ) (r : Rail) :
    (∀ s, calcSingleBank c cue obj pk r = some s →
      ¬ |railAxisDelta obj (reflectPoint c pk r) r| < 1e-9 ∧
      0 ≤ bankT c obj pk r ∧
      s.bankPoints = [bankPt c obj pk r] ∧
      onRail c (bankPt c obj pk r) r) ∧
    (|railAxisDelta obj (reflectPoint c pk r) r| < 1e-9 →
      calcSingleBank c cue obj pk r = none) ∧
    (bankT c obj pk r < 0 → calcSingleBank c cue obj pk r = none) ∧
    (¬ onRail c (bankPt c obj pk r) r → calcSingleBank c cue obj pk r = none) := by
  by_cases hpar : |railAxisDelta obj (reflectPoint c pk r) r| < 1e-9
  · have hL : lineRailIntersection obj (reflectPoint c pk r) r = none := by
      rw [lineRailIntersection_char, if_pos hpar]
    have hnone : calcSingleBank c cue obj pk r = none := by
      simp only [calcSingleBank, hL]
    refine ⟨?_, fun _ => hnone, fun _ => hnone, fun _ => hnone⟩
    intro s hs
    rw [hnone] at hs
    exact Option.noConfusion hs
  · by_cases ht : bankT c obj pk r < 0
    · have ht' : (railConst r - railAxisCoord obj r) /
          railAxisDelta obj (reflectPoint c pk r) r < 0 := ht
      have hL : lineRailIntersection obj (reflectPoint c pk r) r = none := by
        rw [lineRailIntersection_char, if_neg hpar, if_pos ht']
      have hnone : calcSingleBank c cue obj pk r = none := by
        simp only [calcSingleBank, hL]
      refine ⟨?_, fun _ => hnone, fun _ => hnone, fun _ => hnone⟩
      intro s hs
      rw [hnone] at hs
      exact Option.noConfusion hs
    · have ht' : ¬ (railConst r - railAxisCoord obj r) /
          railAxisDelta obj (reflectPoint c pk r) r < 0 := ht
      have hL : lineRailIntersection obj (reflectPoint c pk r) r =
          some (bankPt c obj pk r) := by
        rw [lineRailIntersection_char, if_neg hpar, if_neg ht']
        rfl
      by_cases hrail : onRail c (bankPt c obj pk r) r
      · refine ⟨?_, fun hp => absurd hp hpar, fun h0 => absurd h0 ht,
          fun hn => absurd hrail hn⟩
        intro s hs
        obtain ⟨bp, hbp, _, _, _, _, hb, _⟩ := calcSingleBank_props hs
        have hbpe : bp = bankPt c obj pk r := by
          rw [hL] at hbp
          exact (Option.some_inj.mp hbp).symm
        rw [hbpe] at hb
        exact ⟨hpar, not_lt.mp ht, hb, hrail⟩
      · have hnone : calcSingleBank c cue obj pk r = none := by
          simp only [calcSingleBank, hL]
          rw [if_pos hrail]
        refine ⟨?_, fun _ => hnone, fun _ => hnone, fun _ => hnone⟩
        intro s hs
        rw [hnone] at hs
        exact Option.noConfusion hs

/-- Witness for C4: the concrete left-rail single-bank candidate of `sW_eq`,
with its cushion point (0, 838.5) given by the mirror construction at
`t = 200/759 ≥ 0`. -/
theorem single_bank_cushion_point_spec_witness :
    calcSingleBank calcDefault (145.72, 772.79) (400, 1138.5) (1118, 0) Rail.left
      = some sW ∧
    (¬ |railAxisDelta (400, 1138.5) (reflectPoint calcDefault (1118, 0) Rail.left)
        Rail.left| < 1e-9 ∧
     0 ≤ bankT calcDefault (400, 1138.5) (1118, 0) Rail.left ∧
     sW.bankPoints = [bankPt calcDefault (400, 1138.5) (1118, 0) Rail.left] ∧
     onRail calcDefault (bankPt calcDefault (400, 1138.5) (1118, 0) Rail.left)
       Rail.left) :=
  ⟨sW_eq, (single_bank_cushion_point_spec calcDefault (145.72, 772.79) (400, 1138.5)
    (1118, 0) Rail.left).1 sW sW_eq⟩

/-- C6: if the object ball lies within 1e-6 mm of the selected pocket, the
direct-shot candidate for that pocket is silently dropped: `_calcDirect`
returns null, that pocket contributes only its bank candidates, no direct
candidate targeting that pocket appears in any output, and the call still
returns a list. -/
theorem degenerate_pocket_drops_direct (c : Calc) (cue obj : ℝ × ℝ)
    (tp : Option PocketName) (mb : ℤ) (p : PocketName)
    (h : dist obj (POCKETS p) < 1e-6) :
    calcDirect c cue obj (POCKETS p) = none ∧
    pocketShots c cue obj p mb =
      singleBankShotsFor c cue obj p mb ++ doubleBankShotsFor c cue obj p mb ∧
    (solve c cue obj tp mb).Forall
      (fun s => ¬ (s.railsUsed = [] ∧ s.targetPocket = POCKETS p)) ∧
    (findAllShots c cue obj none mb).isSome = true := by
  have hdir : calcDirect c cue obj (POCKETS p) = none := by
    have h' : hypot ((POCKETS p).1 - obj.1) ((POCKETS p).2 - obj.2) < 1e-6 := h
    simp only [calcDirect]
    rw [if_pos h']
  refine ⟨hdir, ?_, ?_, rfl⟩
  · unfold pocketShots directShotsFor
    rw [hdir]
    rfl
  · rw [List.forall_iff_forall_mem]
    intro s hs
    rintro ⟨hr, htp⟩
    obtain ⟨q, hq⟩ := mem_solve hs
    rcases mem_pocketShots hq with hD | ⟨_, r, hS⟩ | ⟨_, r1, r2, _, hDD⟩
    · obtain ⟨_, _, hq', _⟩ := calcDirect_props hD
      rw [htp] at hq'
      rw [← hq'] at hD
      rw [hdir] at hD
      exact Option.noConfusion hD
    · have := singleBank_railsUsed hS
      rw [this] at hr
      exact List.noConfusion hr
    · have := doubleBank_railsUsed hDD
      rw [this] at hr
      exact List.noConfusion hr

/-- Witness for C6: object ball exactly on the bottom-right pocket. -/
theorem degenerate_pocket_drops_direct_witness :
    dist (1118, 0) (POCKETS PocketName.bottom_right) < 1e-6 ∧
    (calcDirect calcDefault (0, 0) (1118, 0) (POCKETS PocketName.bottom_right) = none ∧
     pocketShots calcDefault (0, 0) (1118, 0) PocketName.bottom_right 0 =
       singleBankShotsFor calcDefault (0, 0) (1118, 0) PocketName.bottom_right 0
         ++ doubleBankShotsFor calcDefault (0, 0) (1118, 0) PocketName.bottom_right 0 ∧
     (solve calcDefault (0, 0) (1118, 0) (some PocketName.bottom_right) 0).Forall
       (fun s => ¬ (s.railsUsed = [] ∧ s.targetPocket = POCKETS PocketName.bottom_right)) ∧
     (findAllShots calcDefault (0, 0) (1118, 0) none 0).isSome = true) := by
  have h : dist (1118, 0) (POCKETS PocketName.bottom_right) < 1e-6 := by
    norm_num [dist, hypot, POCKETS, TABLE_WIDTH, Real.sqrt_zero]
  exact ⟨h, degenerate_pocket_drops_direct calcDefault (0, 0) (1118, 0)
    (some PocketName.bottom_right) 0 PocketName.bottom_right h⟩

/-- C9 (amended): a truthy pocket-name string that is neither an own key of
the pocket table nor a property name inherited from `Object.prototype`
makes the call fail (the modelled `TypeError` from dereferencing the first
coordinate of an undefined pocket position).  For an inherited
`Object.prototype` property name the lookup is non-undefined but not a
coordinate pair: the call still fails whenever a bank branch runs
(`maxBanks >= 1`, the modelled `TypeError` from destructuring a
non-iterable value in `_reflectPoint`), but with `maxBanks < 1` it returns
the empty list.  No failure occurs when the selector is null, empty, or a
known pocket name. -/
theorem unknown_pocket_name_errors (c : Calc) (cue obj : ℝ × ℝ) (mb : ℤ)
    (name : String) :
    (name ≠ "" → parsePocket name = none → name ∉ OBJECT_PROTOTYPE_KEYS →
      findAllShots c cue obj (some name) mb = none) ∧
    (name ≠ "" → parsePocket name = none → name ∈ OBJECT_PROTOTYPE_KEYS → 1 ≤ mb →
      findAllShots c cue obj (some name) mb = none) ∧
    (name ≠ "" → parsePocket name = none → name ∈ OBJECT_PROTOTYPE_KEYS → mb < 1 →
      findAllShots c cue obj (some name) mb = some []) ∧
    (∀ p, parsePocket name = some p →
      (findAllShots c cue obj (some name) mb).isSome = true) ∧
    (findAllShots c cue obj none mb).isSome = true := by
  refine ⟨?_, ?_, ?_, ?_, rfl⟩
  · intro hne hno hnotin
    have hl : pocketLookup name = PocketLookup.absent := by
      unfold pocketLookup
      rw [hno, if_neg hnotin]
    simp only [findAllShots, if_neg hne, hl]
  · intro hne hno hin hmb
    have hl : pocketLookup name = PocketLookup.protoValue := by
      unfold pocketLookup
      rw [hno, if_pos hin]
    simp only [findAllShots, if_neg hne, hl]
    rw [if_pos hmb]
  · intro hne hno hin hmb
    have hl : pocketLookup name = PocketLookup.protoValue := by
      unfold pocketLookup
      rw [hno, if_pos hin]
    simp only [findAllShots, if_neg hne, hl]
    rw [if_neg (not_le.mpr hmb)]
  · intro p hp
    by_cases hne : name = ""
    · subst hne
      simp [findAllShots]
    · have hl : pocketLookup name = PocketLookup.coords p := by
        unfold pocketLookup
        rw [hp]
      simp only [findAllShots, if_neg hne, hl, Option.isSome_some]

/-- Witness for C9 (amended): the plain unknown name `"corner"` fails, the
inherited name `"toString"` fails once banks are enumerated but returns the
empty list at `maxBanks = 0`, and the known name `"top_left"` succeeds. -/
theorem unknown_pocket_name_errors_witness :
    ("corner" ≠ "" ∧ parsePocket "corner" = none ∧
      "corner" ∉ OBJECT_PROTOTYPE_KEYS ∧
      findAllShots calcDefault (0, 0) (500, 500) (some "corner") 2 = none) ∧
    ("toString" ≠ "" ∧ parsePocket "toString" = none ∧
      "toString" ∈ OBJECT_PROTOTYPE_KEYS ∧ (1 : ℤ) ≤ 2 ∧
      findAllShots calcDefault (0, 0) (500, 500) (some "toString") 2 = none) ∧
    ("toString" ≠ "" ∧ (0 : ℤ) < 1 ∧
      findAllShots calcDefault (0, 0) (500, 500) (some "toString") 0 = some []) ∧
    (parsePocket "top_left" = some PocketName.top_left ∧
      (findAllShots calcDefault (0, 0) (500, 500) (some "top_left") 2).isSome = true) := by
  refine ⟨⟨by decide, by decide, by decide, ?_⟩,
    ⟨by decide, by decide, by decide, by decide, ?_⟩,
    ⟨by decide, by decide, ?_⟩, by decide, ?_⟩
  · exact (unknown_pocket_name_errors calcDefault (0, 0) (500, 500) 2 "corner").1
      (by decide) (by decide) (by decide)
  · exact (unknown_pocket_name_errors calcDefault (0, 0) (500, 500) 2 "toString").2.1
      (by decide) (by decide) (by decide) (by decide)
  · exact (unknown_pocket_name_errors calcDefault (0, 0) (500, 500) 0
      "toString").2.2.1 (by decide) (by decide) (by decide) (by decide)
  · exact (unknown_pocket_name_errors calcDefault (0, 0) (500, 500) 2
      "top_left").2.2.2.1 PocketName.top_left (by decide)

/-- C9 counterexample: two non-null strings outside the six known pocket
names for which `findAllShots` nevertheless returns a result list.  The
empty string is falsy, so the source scans all six pockets; the name
`"constructor"` resolves through the prototype chain of the `POCKETS`
object literal to a non-undefined value whose `[0]` is `undefined`, so at
`maxBanks = 0` the direct computation fails silently on `NaN` comparisons
and the call returns the empty list instead of throwing. -/
theorem truthy_pocket_lookup_counterexample :
    (parsePocket "" = none ∧
      (findAllShots calcDefault (0, 0) (500, 500) (some "") 2).isSome = true) ∧
    (parsePocket "constructor" = none ∧
      findAllShots calcDefault (0, 0) (500, 500) (some "constructor") 0 = some []) := by
  refine ⟨⟨by decide, by simp [findAllShots]⟩, by decide, ?_⟩
  have hl : pocketLookup "constructor" = PocketLookup.protoValue := by decide
  simp only [findAllShots, if_neg (by decide : ¬ ("constructor" = "")), hl]
  rw [if_neg (by decide : ¬ (1 : ℤ) ≤ 0)]

/-- C7: spec Scenario A on the default 1118×2235 table with ballRadius
28.575, object (500, 500), pocket bottom-right (1118, 0), cue (300, 1000):
the direct candidate exists, with direction ≈ (0.7774, -0.6291), aim point
≈ (455.6, 536.0), cue→aim ≈ 489.5, object→pocket ≈ 795.0, total ≈ 1284.5,
score ≈ 0.129, category EASY. -/
theorem scenario_a_direct_easy :
    ∃ s, calcDirect calcDefault (300, 1000) (500, 500)
        (POCKETS PocketName.bottom_right) = some s ∧
      s ∈ solve calcDefault (300, 1000) (500, 500) (some PocketName.bottom_right) 0 ∧
      POCKETS PocketName.bottom_right = (1118, 0) ∧
      |(500 - s.aimPoint.1) / (BALL_RADIUS * 2) - 0.7774| < 1e-3 ∧
      |(500 - s.aimPoint.2) / (BALL_RADIUS * 2) + 0.6291| < 1e-3 ∧
      |s.aimPoint.1 - 455.6| < 0.1 ∧
      |s.aimPoint.2 - 536.0| < 0.1 ∧
      |dist (300, 1000) s.aimPoint - 489.5| < 0.1 ∧
      |dist (500, 500) (1118, 0) - 795.0| < 0.1 ∧
      |s.totalDistance - 1284.5| < 0.2 ∧
      |s.difficultyScore - 0.129| < 1e-3 ∧
      s.difficulty = Difficulty.easy := by
  obtain ⟨ha1, ha2, ha3, ha4⟩ := aim7_bounds
  obtain ⟨hc1, hc2⟩ := cueDist7_bounds
  obtain ⟨hs1, hs2⟩ := score7_bounds
  have hd1 := d7_lo
  have hd2 := d7_hi
  have hd0 : d7 ≠ 0 := ne_of_gt d7_pos
  have hsa : s7.aimPoint = aim7 := rfl
  have hst : s7.totalDistance = cueDist7 + d7 := rfl
  have hss : s7.difficultyScore = score7 := rfl
  refine ⟨s7, s7_eq, ?_, hpk_br, ?_, ?_, ?_, ?_, ?_, ?_, ?_, ?_, rfl⟩
  · have hmem : s7 ∈ pocketShots calcDefault (300, 1000) (500, 500)
        PocketName.bottom_right 0 := by
      unfold pocketShots directShotsFor
      rw [s7_eq]
      simp [singleBankShotsFor, doubleBankShotsFor]
    unfold solve sortScore
    rw [List.mem_insertionSort]
    exact hmem
  · have hx : (500 - s7.aimPoint.1) / (BALL_RADIUS * 2) = 618 / d7 := by
      rw [hsa]
      unfold aim7
      dsimp only
      rw [ball_radius_val]
      field_simp
      ring
    rw [hx, abs_lt]
    constructor <;> nlinarith [q618_lo, q618_hi]
  · have hy : (500 - s7.aimPoint.2) / (BALL_RADIUS * 2) = -(500 / d7) := by
      rw [hsa]
      unfold aim7
      dsimp only
      rw [ball_radius_val]
      field_simp
      ring
    rw [hy, abs_lt]
    constructor <;> nlinarith [q500_lo, q500_hi]
  · rw [hsa, abs_lt]
    constructor <;> linarith
  · rw [hsa, abs_lt]
    constructor <;> linarith
  · have hcd : dist (300, 1000) s7.aimPoint = cueDist7 := by
      rw [hsa]
      rfl
    rw [hcd, abs_lt]
    constructor <;> linarith
  · have hdo : dist (500, 500) ((1118 : ℝ), (0 : ℝ)) = d7 := d7_eq
    rw [hdo, abs_lt]
    constructor <;> linarith
  · rw [hst, abs_lt]
    constructor <;> linarith
  · rw [hss, abs_lt]
    constructor <;> linarith

/-- Witness for C10: clamping instantiated at `maxBanks = 5` and
`maxBanks = -3`. -/
theorem max_banks_not_validated_witness :
    ((2 : ℤ) ≤ 5 ∧
      solve calcDefault (0, 0) (0, 0) none 5 = solve calcDefault (0, 0) (0, 0) none 2) ∧
    ((-3 : ℤ) < 1 ∧
      solve calcDefault (0, 0) (0, 0) none (-3) = solve calcDefault (0, 0) (0, 0) none 0) :=
  ⟨⟨by norm_num, (max_banks_not_validated calcDefault (0, 0) (0, 0) none 5).1 (by norm_num)⟩,
   ⟨by norm_num,
    (max_banks_not_validated calcDefault (0, 0) (0, 0) none (-3)).2 (by norm_num)⟩⟩

end

end BankShot
